import Mathlib

/-!
Shallow embedding of `src/main.py` from the Financial-Administrative-System
repository: a skeleton of a personal finance client/server application in
which every method body raises `NotImplementedError`, together with an
argparse-based command-line entry point.

Python exceptions are modelled by `Except`-valued functions; a raised
`NotImplementedError` becomes `Except.error (PyExc.notImplementedError msg)`
where `msg` is the optional message string passed to the exception
constructor.  Python `Dict[str, str]` values are modelled as association
lists `List (String × String)`; Python `float` amounts are modelled as `Rat`
(no arithmetic is ever performed on them, so the carrier is irrelevant).
Methods whose documented intent is to mutate `self` (the request handler and
the UI, whose `session` attribute could be assigned) are given explicit
state-passing types `self → args → Except PyExc (result × self)`.
-/

/-- A raised Python exception. The skeleton only ever raises
`NotImplementedError`, with an optional message. -/
inductive PyExc where
  | notImplementedError (msg : Option String)
deriving DecidableEq

/-- Embedding of `DB_PATH = Path(__file__).with_name("finance.db")`:
the path of the file `finance.db` placed next to the source file.
Paths are modelled as strings; the only fact the program depends on is
that this is the single default value. -/
def DB_PATH : String := "finance.db"

/-- Embedding of the dataclass `User` (line 54): username, password, role
and an optional numeric id defaulting to `None`. -/
structure User where
  username : String
  password : String
  role : String
  id : Option Int := none
deriving DecidableEq

/-- Calling `User(username, password, role)` without the optional `id`
argument: the dataclass default `id = None` applies. -/
def User.make (username password role : String) : User :=
  { username := username, password := password, role := role }

/-- Embedding of the dataclass `Bill` (line 62): owning user id, kind,
amount, category, notes defaulting to `""` and an optional numeric id
defaulting to `None`. -/
structure Bill where
  user_id : Int
  kind : String
  amount : Rat
  category : String
  notes : String := ""
  id : Option Int := none
deriving DecidableEq

/-- Calling `Bill(user_id, kind, amount, category)` without the optional
arguments: the dataclass defaults `notes = ""` and `id = None` apply. -/
def Bill.make (user_id : Int) (kind : String) (amount : Rat)
    (category : String) : Bill :=
  { user_id := user_id, kind := kind, amount := amount, category := category }

/-- Embedding of the dataclass `Session` (line 112): the logged-in user and
a token. -/
structure Session where
  user : User
  token : String
deriving DecidableEq

/-- Embedding of the class `SQLiteDatabase` (line 72): its only attribute is
`path`, assigned in `__init__`. -/
structure SQLiteDatabase where
  path : String
deriving DecidableEq

/-- `SQLiteDatabase(path)`: `__init__` (line 80) stores the path. -/
def SQLiteDatabase.init (path : String) : SQLiteDatabase :=
  { path := path }

/-- `SQLiteDatabase()` with the default argument `path = DB_PATH`. -/
def SQLiteDatabase.initDefault : SQLiteDatabase :=
  SQLiteDatabase.init DB_PATH

/-- Method `SQLiteDatabase.initialize` (line 83): raises
`NotImplementedError("创建 users 与 transactions 两张表")`. -/
def SQLiteDatabase.initialize (_ : SQLiteDatabase) : Except PyExc Unit :=
  .error (.notImplementedError (some "创建 users 与 transactions 两张表"))

/-- Method `SQLiteDatabase.authenticate` (line 87): raises
`NotImplementedError`. -/
def SQLiteDatabase.authenticate (_ : SQLiteDatabase)
    (_ _ : String) : Except PyExc (Option User) :=
  .error (.notImplementedError none)

/-- Method `SQLiteDatabase.fetch_user_records` (line 91): raises
`NotImplementedError`. -/
def SQLiteDatabase.fetch_user_records (_ : SQLiteDatabase)
    (_ : Int) : Except PyExc (List Bill) :=
  .error (.notImplementedError none)

/-- Method `SQLiteDatabase.fetch_all_records` (line 95): raises
`NotImplementedError`. -/
def SQLiteDatabase.fetch_all_records (_ : SQLiteDatabase) :
    Except PyExc (List Bill) :=
  .error (.notImplementedError none)

/-- Method `SQLiteDatabase.upsert_record` (line 99): raises
`NotImplementedError`. -/
def SQLiteDatabase.upsert_record (_ : SQLiteDatabase)
    (_ : Bill) : Except PyExc Unit :=
  .error (.notImplementedError none)

/-- Method `SQLiteDatabase.list_users` (line 103): raises
`NotImplementedError`. -/
def SQLiteDatabase.list_users (_ : SQLiteDatabase) :
    Except PyExc (List User) :=
  .error (.notImplementedError none)

/-- Method `SQLiteDatabase.create_user` (line 107): raises
`NotImplementedError`. -/
def SQLiteDatabase.create_user (_ : SQLiteDatabase)
    (_ : User) : Except PyExc Unit :=
  .error (.notImplementedError none)

/-- Embedding of the class `FinanceServer` (line 120): attributes `host`,
`port`, `storage` assigned in `__init__` (line 128).  The only storage
backend the repository defines is `SQLiteDatabase`, and it is the only
value ever passed for `storage`. -/
structure FinanceServer where
  host : String
  port : Int
  storage : SQLiteDatabase
deriving DecidableEq

/-- `FinanceServer(host, port, storage)`: `__init__` stores the three
arguments. -/
def FinanceServer.init (host : String) (port : Int)
    (storage : SQLiteDatabase) : FinanceServer :=
  { host := host, port := port, storage := storage }

/-- Method `FinanceServer.start` (line 133): raises
`NotImplementedError("初始化 socket/HTTP 服务，接受客户端连接")`. -/
def FinanceServer.start (_ : FinanceServer) : Except PyExc Unit :=
  .error (.notImplementedError (some "初始化 socket/HTTP 服务，接受客户端连接"))

/-- Method `FinanceServer.stop` (line 137): raises `NotImplementedError`. -/
def FinanceServer.stop (_ : FinanceServer) : Except PyExc Unit :=
  .error (.notImplementedError none)

/-- Embedding of the class `FinanceRequestHandler` (line 142): attributes
`storage` and `session`, the latter initialised to `None`. -/
structure FinanceRequestHandler where
  storage : SQLiteDatabase
  session : Option Session
deriving DecidableEq

/-- `FinanceRequestHandler(storage)`: `__init__` (line 150) stores the
storage backend and sets `session = None`. -/
def FinanceRequestHandler.init (storage : SQLiteDatabase) :
    FinanceRequestHandler :=
  { storage := storage, session := none }

/-- Method `FinanceRequestHandler.dispatch` (line 154): raises
`NotImplementedError("根据 action 分发到不同处理函数")` for every payload. -/
def FinanceRequestHandler.dispatch (_ : FinanceRequestHandler)
    (_ : List (String × String)) :
    Except PyExc (List (String × String) × FinanceRequestHandler) :=
  .error (.notImplementedError (some "根据 action 分发到不同处理函数"))

/-- Method `FinanceRequestHandler._handle_login` (line 164): raises
`NotImplementedError`. -/
def FinanceRequestHandler.handle_login (_ : FinanceRequestHandler)
    (_ _ : String) :
    Except PyExc (List (String × String) × FinanceRequestHandler) :=
  .error (.notImplementedError none)

/-- Method `FinanceRequestHandler._handle_logout` (line 168): raises
`NotImplementedError`. -/
def FinanceRequestHandler.handle_logout (_ : FinanceRequestHandler) :
    Except PyExc (List (String × String) × FinanceRequestHandler) :=
  .error (.notImplementedError none)

/-- Method `FinanceRequestHandler._handle_fetch` (line 172): raises
`NotImplementedError`. -/
def FinanceRequestHandler.handle_fetch (_ : FinanceRequestHandler)
    (_ : String) :
    Except PyExc (List (String × String) × FinanceRequestHandler) :=
  .error (.notImplementedError none)

/-- Method `FinanceRequestHandler._handle_update` (line 176): raises
`NotImplementedError`. -/
def FinanceRequestHandler.handle_update (_ : FinanceRequestHandler)
    (_ : List (String × String)) :
    Except PyExc (List (String × String) × FinanceRequestHandler) :=
  .error (.notImplementedError none)

/-- Method `FinanceRequestHandler._handle_admin_actions` (line 180): raises
`NotImplementedError("管理员可查看所有用户记录、统计图表等")`. -/
def FinanceRequestHandler.handle_admin_actions (_ : FinanceRequestHandler)
    (_ : List (String × String)) :
    Except PyExc (List (String × String) × FinanceRequestHandler) :=
  .error (.notImplementedError (some "管理员可查看所有用户记录、统计图表等"))

/-- Method `FinanceRequestHandler._require_login` (line 183): raises
`NotImplementedError("若未登录则抛出异常/返回错误信息")`. -/
def FinanceRequestHandler.require_login (_ : FinanceRequestHandler) :
    Except PyExc (Session × FinanceRequestHandler) :=
  .error (.notImplementedError (some "若未登录则抛出异常/返回错误信息"))

/-- Embedding of the class `FinanceClient` (line 188): attributes `host`
and `port` assigned in `__init__` (line 196). -/
structure FinanceClient where
  host : String
  port : Int
deriving DecidableEq

/-- `FinanceClient(host, port)`: `__init__` stores the two arguments. -/
def FinanceClient.init (host : String) (port : Int) : FinanceClient :=
  { host := host, port := port }

/-- Method `FinanceClient.connect` (line 200): raises
`NotImplementedError("建立 TCP/HTTP 连接")`. -/
def FinanceClient.connect (_ : FinanceClient) : Except PyExc Unit :=
  .error (.notImplementedError (some "建立 TCP/HTTP 连接"))

/-- Method `FinanceClient.login` (line 204): raises `NotImplementedError`. -/
def FinanceClient.login (_ : FinanceClient) (_ _ : String) :
    Except PyExc (List (String × String)) :=
  .error (.notImplementedError none)

/-- Method `FinanceClient.logout` (line 208): raises `NotImplementedError`. -/
def FinanceClient.logout (_ : FinanceClient) : Except PyExc Unit :=
  .error (.notImplementedError none)

/-- Method `FinanceClient.fetch_records` (line 212): raises
`NotImplementedError` (the `scope` argument defaults to `"own"` in Python;
here it is passed explicitly). -/
def FinanceClient.fetch_records (_ : FinanceClient) (_ : String) :
    Except PyExc (List Bill) :=
  .error (.notImplementedError none)

/-- Method `FinanceClient.update_record` (line 216): raises
`NotImplementedError`. -/
def FinanceClient.update_record (_ : FinanceClient) (_ : Bill) :
    Except PyExc Unit :=
  .error (.notImplementedError none)

/-- Method `FinanceClient.list_users` (line 220): raises
`NotImplementedError`. -/
def FinanceClient.list_users (_ : FinanceClient) :
    Except PyExc (List User) :=
  .error (.notImplementedError none)

/-- Method `FinanceClient.create_user` (line 224): raises
`NotImplementedError`. -/
def FinanceClient.create_user (_ : FinanceClient) (_ : User) :
    Except PyExc Unit :=
  .error (.notImplementedError none)

/-- Embedding of the class `ClientUI` (line 229): attributes `client` and
`session`, the latter initialised to `None`. -/
structure ClientUI where
  client : FinanceClient
  session : Option Session
deriving DecidableEq

/-- `ClientUI(client)`: `__init__` (line 236) stores the client and sets
`session = None`. -/
def ClientUI.init (client : FinanceClient) : ClientUI :=
  { client := client, session := none }

/-- Method `ClientUI._login_flow` (line 244): raises
`NotImplementedError("输入账号密码，调用 client.login")`. -/
def ClientUI.login_flow (_ : ClientUI) : Except PyExc (Unit × ClientUI) :=
  .error (.notImplementedError (some "输入账号密码，调用 client.login"))

/-- Method `ClientUI._main_menu` (line 248): raises `NotImplementedError`. -/
def ClientUI.main_menu (_ : ClientUI) : Except PyExc (Unit × ClientUI) :=
  .error (.notImplementedError none)

/-- Method `ClientUI.run` (line 240): calls `self._login_flow()` and then
`self._main_menu()`; either raised exception propagates. -/
def ClientUI.run (ui : ClientUI) : Except PyExc (Unit × ClientUI) :=
  match ui.login_flow with
  | .error e => .error e
  | .ok (_, ui2) => ui2.main_menu

/-- Function `run_server` (line 259): builds `SQLiteDatabase()` with the
default path, calls `initialize`, then builds a `FinanceServer` and calls
`start`; any raised exception propagates. -/
def run_server (host : String) (port : Int) : Except PyExc Unit :=
  let storage := SQLiteDatabase.initDefault
  match storage.initialize with
  | .error e => .error e
  | .ok _ =>
    let server := FinanceServer.init host port storage
    server.start

/-- Function `run_client` (line 267): builds a `FinanceClient`, calls
`connect`, then builds a `ClientUI` and calls `run`; any raised exception
propagates. -/
def run_client (host : String) (port : Int) : Except PyExc Unit :=
  let client := FinanceClient.init host port
  match client.connect with
  | .error e => .error e
  | .ok _ =>
    let ui := ClientUI.init client
    match ui.run with
    | .error e => .error e
    | .ok _ => .ok ()

/-- The namespace returned by `parse_args` (line 275): fields `mode`,
`host`, `port` (argparse stores the sub-command name in `mode` via
`dest="mode"`). -/
structure Namespace where
  mode : String
  host : String
  port : Int
deriving DecidableEq

/-- A non-normal exit of argparse: either an argument error (argparse
prints a message and exits with status 2) or a help exit (`-h`/`--help`,
exit status 0).  Both are raised as `SystemExit` in Python; neither returns
a namespace. -/
inductive ParseExit where
  | error (msg : String)
  | help
deriving DecidableEq

/-- A nonempty run of decimal digits (the regex `\d+`), over the character
list of a string. -/
def digitRun (l : List Char) : Bool :=
  !l.isEmpty && l.all Char.isDigit

/-- The regex `\d*\.\d+` over a character list: optional leading digits, a
dot, then at least one digit. -/
def fracRun (l : List Char) : Bool :=
  match l.dropWhile Char.isDigit with
  | '.' :: rest => digitRun rest
  | _ => false

/-- The value of a nonempty digit string, read in base 10. -/
def digitsToNat (l : List Char) : Nat :=
  l.foldl (fun n c => 10 * n + (c.toNat - 48)) 0

/-- Python `int(s)` restricted to the forms an argparse `type=int` value
can take here: an optional sign followed by decimal digits.  (Python also
strips whitespace and allows digit-group underscores; those inputs are not
modelled and are mapped to `none`, making the model accept a subset of
what Python accepts.) -/
def pyInt (s : String) : Option Int :=
  match s.data with
  | '-' :: r => if digitRun r then some (-(digitsToNat r : Int)) else none
  | '+' :: r => if digitRun r then some ((digitsToNat r : Int)) else none
  | r => if digitRun r then some ((digitsToNat r : Int)) else none

/-- Argparse's negative-number matcher `^-\d+$|^-\d*\.\d+$`: since no
option string of this parser looks like a negative number, a token matching
this pattern is treated as a value, not as an option. -/
def isNegativeNumberToken (s : String) : Bool :=
  match s.data with
  | '-' :: r => digitRun r || fracRun r
  | _ => false

/-- String prefix test over character lists (avoiding the byte-level
`String.startsWith`, which does not reduce definitionally). -/
def strHasPrefix (s p : String) : Bool :=
  p.data.isPrefixOf s.data

/-- Dropping the first `n` characters of a string, over character lists. -/
def strDropChars (s : String) (n : Nat) : String :=
  ⟨s.data.drop n⟩

/-- Argparse's test for whether a token is an option string rather than a
value: it starts with the prefix character, is not the bare `"-"`, does not
look like a negative number, and contains no space. -/
def looksLikeOptionToken (s : String) : Bool :=
  strHasPrefix s "-" && s != "-" && !isNegativeNumberToken s &&
    !s.data.contains ' '

/-- The namespace defaults installed by the `server` sub-parser
(lines 280-282): host `0.0.0.0`, port `9000`. -/
def serverDefaults : Namespace :=
  { mode := "server", host := "0.0.0.0", port := 9000 }

/-- The namespace defaults installed by the `client` sub-parser
(lines 284-286): host `127.0.0.1`, port `9000`. -/
def clientDefaults : Namespace :=
  { mode := "client", host := "127.0.0.1", port := 9000 }

/-- Option processing of a sub-parser (`server` or `client`): both define
`--host` (a string) and `--port` (`type=int`), plus the automatic
`-h`/`--help`.  Values may be given as a separate token or attached with
`=`; a token that looks like an option string cannot serve as a value; any
other token is an argparse error.  (Argparse option-prefix abbreviations
such as `--ho` are not modelled; no claim exercises them.) -/
def parseOptions : List String → Namespace → Except ParseExit Namespace
  | [], ns => .ok ns
  | a :: rest, ns =>
    if a = "-h" ∨ a = "--help" then .error .help
    else if a = "--host" then
      match rest with
      | [] => .error (.error "argument --host: expected one argument")
      | v :: rest2 =>
        if looksLikeOptionToken v then
          .error (.error "argument --host: expected one argument")
        else parseOptions rest2 { ns with host := v }
    else if strHasPrefix a "--host=" then
      parseOptions rest { ns with host := strDropChars a 7 }
    else if a = "--port" then
      match rest with
      | [] => .error (.error "argument --port: expected one argument")
      | v :: rest2 =>
        if looksLikeOptionToken v then
          .error (.error "argument --port: expected one argument")
        else
          match pyInt v with
          | some n => parseOptions rest2 { ns with port := n }
          | none => .error (.error ("argument --port: invalid int value: " ++ v))
    else if strHasPrefix a "--port=" then
      match pyInt (strDropChars a 7) with
      | some n => parseOptions rest { ns with port := n }
      | none =>
        .error (.error ("argument --port: invalid int value: " ++ strDropChars a 7))
    else .error (.error ("unrecognized arguments: " ++ a))

/-- Function `parse_args` (line 275): a required sub-command chosen from
`server` and `client`, each installing its defaults and then processing its
`--host`/`--port` options.  An empty argument list fails because the
sub-command is required; `-h`/`--help` exits with help; any other first
token fails with an argparse error (an unrecognized option or an invalid
choice). -/
def parse_args : List String → Except ParseExit Namespace
  | [] => .error (.error "the following arguments are required: mode")
  | a :: rest =>
    if a = "-h" ∨ a = "--help" then .error .help
    else if a = "server" then parseOptions rest serverDefaults
    else if a = "client" then parseOptions rest clientDefaults
    else if looksLikeOptionToken a then
      .error (.error ("unrecognized arguments: " ++ a))
    else .error (.error ("argument mode: invalid choice: " ++ a))

/-- A non-normal exit of `main`: either a parse exit from `parse_args` or a
Python exception propagating out of `run_server`/`run_client`. -/
inductive MainExit where
  | parseExit (e : ParseExit)
  | pyExc (e : PyExc)
deriving DecidableEq

/-- Function `main` (line 291): parses the arguments and dispatches to
`run_server` when `mode == "server"` and to `run_client` otherwise.
(The bare name `main` is reserved by Lean for an executable entry point,
so the definition lives in the `Py` namespace.) -/
def Py.main (argv : List String) : Except MainExit Unit :=
  match parse_args argv with
  | .error e => .error (.parseExit e)
  | .ok args =>
    if args.mode = "server" then
      (run_server args.host args.port).mapError MainExit.pyExc
    else
      (run_client args.host args.port).mapError MainExit.pyExc

/-! Helper lemmas shared by the claim theorems below. -/

/-- `run_server` always fails with the message raised by
`SQLiteDatabase.initialize`. -/
theorem run_server_eq (host : String) (port : Int) :
    run_server host port =
      .error (.notImplementedError (some "创建 users 与 transactions 两张表")) := rfl

/-- `run_client` always fails with the message raised by
`FinanceClient.connect`. -/
theorem run_client_eq (host : String) (port : Int) :
    run_client host port =
      .error (.notImplementedError (some "建立 TCP/HTTP 连接")) := rfl

/-- Option processing never changes the `mode` field installed by the
chosen sub-parser. -/
theorem parseOptions_mode {l : List String} {ns ns2 : Namespace}
    (hp : parseOptions l ns = .ok ns2) : ns2.mode = ns.mode := by
  induction l, ns using parseOptions.induct generalizing ns2 <;>
    (rw [parseOptions.eq_def] at hp; simp_all)

/-- A lone `--host v` with a value token sets the `host` field. -/
theorem parseOptions_host (v : String) (ns : Namespace)
    (hv : looksLikeOptionToken v = false) :
    parseOptions ["--host", v] ns = .ok { ns with host := v } := by
  rw [parseOptions.eq_def]
  simp [hv]
  rw [parseOptions.eq_def]

/-- A lone `--port v` with an integer value token sets the `port` field. -/
theorem parseOptions_port (v : String) (n : Int) (ns : Namespace)
    (hv : looksLikeOptionToken v = false) (hn : pyInt v = some n) :
    parseOptions ["--port", v] ns = .ok { ns with port := n } := by
  have e1 : parseOptions ["--port", v] ns =
      (if looksLikeOptionToken v = true then
        Except.error (ParseExit.error "argument --port: expected one argument")
      else
        match pyInt v with
        | some m => parseOptions [] { ns with port := m }
        | none =>
          Except.error
            (ParseExit.error ("argument --port: invalid int value: " ++ v))) := rfl
  rw [e1, hv, hn]
  simp
  rfl

/-- Unfolding of `parse_args` on a non-empty argument list. -/
theorem parse_args_cons (a : String) (rest : List String) :
    parse_args (a :: rest) =
      (if a = "-h" ∨ a = "--help" then Except.error ParseExit.help
      else if a = "server" then parseOptions rest serverDefaults
      else if a = "client" then parseOptions rest clientDefaults
      else if looksLikeOptionToken a = true then
        Except.error (ParseExit.error ("unrecognized arguments: " ++ a))
      else
        Except.error
          (ParseExit.error ("argument mode: invalid choice: " ++ a))) := rfl

/-- Claim C1: for every input, every one of the seven `SQLiteDatabase`
storage methods — `initialize`, `authenticate`, `fetch_user_records`,
`fetch_all_records`, `upsert_record`, `list_users`, `create_user` —
unconditionally raises `NotImplementedError`; none returns normally. -/
theorem sqlite_storage_methods_all_raise :
    (∀ db : SQLiteDatabase, db.initialize =
      .error (.notImplementedError (some "创建 users 与 transactions 两张表"))) ∧
    (∀ (db : SQLiteDatabase) (u p : String),
      db.authenticate u p = .error (.notImplementedError none)) ∧
    (∀ (db : SQLiteDatabase) (uid : Int),
      db.fetch_user_records uid = .error (.notImplementedError none)) ∧
    (∀ db : SQLiteDatabase,
      db.fetch_all_records = .error (.notImplementedError none)) ∧
    (∀ (db : SQLiteDatabase) (b : Bill),
      db.upsert_record b = .error (.notImplementedError none)) ∧
    (∀ db : SQLiteDatabase,
      db.list_users = .error (.notImplementedError none)) ∧
    (∀ (db : SQLiteDatabase) (u : User),
      db.create_user u = .error (.notImplementedError none)) :=
  ⟨fun _ => rfl, fun _ _ _ => rfl, fun _ _ => rfl, fun _ => rfl,
   fun _ _ => rfl, fun _ => rfl, fun _ _ => rfl⟩

/-- Claim C2: `parse_args` accepts exactly the sub-commands `server`
(defaults host `0.0.0.0`, port `9000`) and `client` (defaults host
`127.0.0.1`, port `9000`), and explicit `--host`/`--port` flags override
these defaults, with `--port` parsed as an integer. -/
theorem parse_args_defaults_and_overrides :
    parse_args ["server"] =
      .ok { mode := "server", host := "0.0.0.0", port := 9000 } ∧
    parse_args ["client"] =
      .ok { mode := "client", host := "127.0.0.1", port := 9000 } ∧
    (∀ h : String, looksLikeOptionToken h = false →
      parse_args ["server", "--host", h] =
        .ok { mode := "server", host := h, port := 9000 } ∧
      parse_args ["client", "--host", h] =
        .ok { mode := "client", host := h, port := 9000 }) ∧
    (∀ (s : String) (n : Int), looksLikeOptionToken s = false →
      pyInt s = some n →
      parse_args ["server", "--port", s] =
        .ok { mode := "server", host := "0.0.0.0", port := n } ∧
      parse_args ["client", "--port", s] =
        .ok { mode := "client", host := "127.0.0.1", port := n }) := by
  refine ⟨rfl, rfl, ?_, ?_⟩
  · intro h hh
    constructor
    · rw [parse_args_cons]
      simp
      rw [parseOptions_host h serverDefaults hh]
      rfl
    · rw [parse_args_cons]
      simp
      rw [parseOptions_host h clientDefaults hh]
      rfl
  · intro s n hs hn
    constructor
    · rw [parse_args_cons]
      simp
      rw [parseOptions_port s n serverDefaults hs hn]
      rfl
    · rw [parse_args_cons]
      simp
      rw [parseOptions_port s n clientDefaults hs hn]
      rfl

/-- Witness for claim C2 at the concrete inputs `server --host 10.1.2.3`
and `client --port 8080`. -/
theorem parse_args_defaults_and_overrides_witness :
    parse_args ["server", "--host", "10.1.2.3"] =
      .ok { mode := "server", host := "10.1.2.3", port := 9000 } ∧
    parse_args ["client", "--port", "8080"] =
      .ok { mode := "client", host := "127.0.0.1", port := 8080 } :=
  ⟨(parse_args_defaults_and_overrides.2.2.1 "10.1.2.3" rfl).1,
   (parse_args_defaults_and_overrides.2.2.2 "8080" 8080 rfl rfl).2⟩

/-- Claim C3: `run_server` raises the not-implemented failure coming from
`SQLiteDatabase.initialize` (its distinctive message; the result differs
from any outcome of `FinanceServer.start`, whose message is different, so
`start` is never the source of the failure); `run_client` raises the
not-implemented failure coming from `FinanceClient.connect` (before any
`ClientUI` comes into play); `main` dispatches mode `server` to
`run_server` and mode `client` to `run_client`; and `main` never returns
normally. -/
theorem main_always_raises :
    (∀ (host : String) (port : Int), run_server host port =
      .error (.notImplementedError (some "创建 users 与 transactions 两张表"))) ∧
    (∀ (host : String) (port : Int),
      run_server host port = SQLiteDatabase.initDefault.initialize) ∧
    (∀ (host : String) (port : Int) (s : FinanceServer),
      run_server host port ≠ s.start) ∧
    (∀ (host : String) (port : Int), run_client host port =
      .error (.notImplementedError (some "建立 TCP/HTTP 连接"))) ∧
    (∀ (host : String) (port : Int) (c : FinanceClient),
      run_client host port = c.connect) ∧
    (∀ argv ns, parse_args argv = .ok ns → ns.mode = "server" →
      Py.main argv = (run_server ns.host ns.port).mapError MainExit.pyExc) ∧
    (∀ argv ns, parse_args argv = .ok ns → ns.mode = "client" →
      Py.main argv = (run_client ns.host ns.port).mapError MainExit.pyExc) ∧
    (∀ (argv : List String) (u : Unit), Py.main argv ≠ .ok u) := by
  refine ⟨fun _ _ => rfl, fun _ _ => rfl, ?_, fun _ _ => rfl,
    fun _ _ _ => rfl, ?_, ?_, ?_⟩
  · intro h p s heq
    exact absurd (Except.error.inj heq) (by decide)
  · intro argv ns hok hmode
    show (match parse_args argv with
      | .error e => (.error (.parseExit e) : Except MainExit Unit)
      | .ok args =>
        if args.mode = "server" then
          (run_server args.host args.port).mapError MainExit.pyExc
        else (run_client args.host args.port).mapError MainExit.pyExc) = _
    rw [hok]
    simp [hmode]
  · intro argv ns hok hmode
    show (match parse_args argv with
      | .error e => (.error (.parseExit e) : Except MainExit Unit)
      | .ok args =>
        if args.mode = "server" then
          (run_server args.host args.port).mapError MainExit.pyExc
        else (run_client args.host args.port).mapError MainExit.pyExc) = _
    rw [hok]
    simp [hmode]
  · intro argv u
    show (match parse_args argv with
      | .error e => (.error (.parseExit e) : Except MainExit Unit)
      | .ok args =>
        if args.mode = "server" then
          (run_server args.host args.port).mapError MainExit.pyExc
        else (run_client args.host args.port).mapError MainExit.pyExc) ≠ _
    cases hp : parse_args argv with
    | error e => simp
    | ok args =>
      by_cases hm : args.mode = "server"
      · simp [hm, run_server_eq, Except.mapError]
      · simp [hm, run_client_eq, Except.mapError]

/-- Witness for claim C3: `main ["server"]` goes through `run_server` and
`main ["client"]` goes through `run_client`, at the default hosts and
ports. -/
theorem main_always_raises_witness :
    Py.main ["server"] = (run_server "0.0.0.0" 9000).mapError MainExit.pyExc ∧
    Py.main ["client"] = (run_client "127.0.0.1" 9000).mapError MainExit.pyExc :=
  ⟨main_always_raises.2.2.2.2.2.1 ["server"] serverDefaults rfl rfl,
   main_always_raises.2.2.2.2.2.2.1 ["client"] clientDefaults rfl rfl⟩

/-- Claim C4: for every input, every public method of `FinanceClient`
(`connect`, `login`, `logout`, `fetch_records`, `update_record`,
`list_users`, `create_user`) and of `FinanceServer` (`start`, `stop`)
raises `NotImplementedError`; none returns normally. -/
theorem client_and_server_methods_all_raise :
    (∀ c : FinanceClient, c.connect =
      .error (.notImplementedError (some "建立 TCP/HTTP 连接"))) ∧
    (∀ (c : FinanceClient) (u p : String),
      c.login u p = .error (.notImplementedError none)) ∧
    (∀ c : FinanceClient, c.logout = .error (.notImplementedError none)) ∧
    (∀ (c : FinanceClient) (scope : String),
      c.fetch_records scope = .error (.notImplementedError none)) ∧
    (∀ (c : FinanceClient) (b : Bill),
      c.update_record b = .error (.notImplementedError none)) ∧
    (∀ c : FinanceClient, c.list_users = .error (.notImplementedError none)) ∧
    (∀ (c : FinanceClient) (u : User),
      c.create_user u = .error (.notImplementedError none)) ∧
    (∀ s : FinanceServer, s.start =
      .error (.notImplementedError (some "初始化 socket/HTTP 服务，接受客户端连接"))) ∧
    (∀ s : FinanceServer, s.stop = .error (.notImplementedError none)) :=
  ⟨fun _ => rfl, fun _ _ _ => rfl, fun _ => rfl, fun _ _ => rfl,
   fun _ _ => rfl, fun _ => rfl, fun _ _ => rfl, fun _ => rfl, fun _ => rfl⟩

/-- Claim C5: `FinanceRequestHandler.dispatch` raises
`NotImplementedError` for every payload — so no action value makes it
return a response — and every handler method (`_handle_login`,
`_handle_logout`, `_handle_fetch`, `_handle_update`,
`_handle_admin_actions`, `_require_login`) raises `NotImplementedError`
for every input. -/
theorem handler_methods_all_raise :
    (∀ (h : FinanceRequestHandler) (payload : List (String × String)),
      h.dispatch payload =
        .error (.notImplementedError (some "根据 action 分发到不同处理函数"))) ∧
    (∀ (h : FinanceRequestHandler) (payload : List (String × String)) res,
      h.dispatch payload ≠ .ok res) ∧
    (∀ (h : FinanceRequestHandler) (u p : String),
      h.handle_login u p = .error (.notImplementedError none)) ∧
    (∀ h : FinanceRequestHandler,
      h.handle_logout = .error (.notImplementedError none)) ∧
    (∀ (h : FinanceRequestHandler) (scope : String),
      h.handle_fetch scope = .error (.notImplementedError none)) ∧
    (∀ (h : FinanceRequestHandler) (bd : List (String × String)),
      h.handle_update bd = .error (.notImplementedError none)) ∧
    (∀ (h : FinanceRequestHandler) (payload : List (String × String)),
      h.handle_admin_actions payload =
        .error (.notImplementedError (some "管理员可查看所有用户记录、统计图表等"))) ∧
    (∀ h : FinanceRequestHandler, h.require_login =
      .error (.notImplementedError (some "若未登录则抛出异常/返回错误信息"))) :=
  ⟨fun _ _ => rfl, fun _ _ _ h => Except.noConfusion h, fun _ _ _ => rfl,
   fun _ => rfl, fun _ _ => rfl, fun _ _ => rfl, fun _ _ => rfl, fun _ => rfl⟩

/-- Witness for claim C5: `dispatch` on a freshly constructed handler with
a concrete login payload does not return a response. -/
theorem handler_methods_all_raise_witness :
    (FinanceRequestHandler.init (SQLiteDatabase.init "finance.db")).dispatch
        [("action", "login")] ≠
      .ok ([("status", "ok")],
        FinanceRequestHandler.init (SQLiteDatabase.init "finance.db")) :=
  handler_methods_all_raise.2.1
    (FinanceRequestHandler.init (SQLiteDatabase.init "finance.db"))
    [("action", "login")]
    ([("status", "ok")],
      FinanceRequestHandler.init (SQLiteDatabase.init "finance.db"))

/-- Claim C6: `ClientUI.run` raises the not-implemented failure on every
invocation, propagated from `_login_flow` (the message is exactly
`_login_flow`'s, and the result differs from any outcome of `_main_menu`,
whose message is different, so `_main_menu` is never reached); and both
`_login_flow` and `_main_menu` raise `NotImplementedError` when invoked
directly. -/
theorem clientUI_run_raises :
    (∀ ui : ClientUI, ui.run =
      .error (.notImplementedError (some "输入账号密码，调用 client.login"))) ∧
    (∀ ui : ClientUI, ui.login_flow =
      .error (.notImplementedError (some "输入账号密码，调用 client.login"))) ∧
    (∀ ui : ClientUI, ui.main_menu = .error (.notImplementedError none)) ∧
    (∀ ui ui2 : ClientUI, ui.run ≠ ui2.main_menu) :=
  ⟨fun _ => rfl, fun _ => rfl, fun _ => rfl,
   fun _ _ h => absurd (Except.error.inj h) (by decide)⟩

/-- Witness for claim C6: on a freshly constructed UI aimed at the default
client address, `run` does not coincide with `_main_menu`. -/
theorem clientUI_run_raises_witness :
    (ClientUI.init (FinanceClient.init "127.0.0.1" 9000)).run ≠
      (ClientUI.init (FinanceClient.init "127.0.0.1" 9000)).main_menu :=
  clientUI_run_raises.2.2.2
    (ClientUI.init (FinanceClient.init "127.0.0.1" 9000))
    (ClientUI.init (FinanceClient.init "127.0.0.1" 9000))

/-- Claim C7: constructing a `User` or a `Bill` succeeds for every choice
of field values and stores them unchanged, with no validation; `User` is
exactly (username, password, role, optional id defaulting to none), `Bill`
is exactly (user_id, kind, amount, category, notes defaulting to the empty
string, optional id defaulting to none); in particular a role outside
admin/user and a kind outside income/expense are accepted and stored as
given. -/
theorem dataclasses_store_fields_unvalidated :
    (∀ (u p r : String) (i : Option Int),
      (User.mk u p r i).username = u ∧ (User.mk u p r i).password = p ∧
      (User.mk u p r i).role = r ∧ (User.mk u p r i).id = i) ∧
    (∀ u p r : String, User.make u p r = User.mk u p r none) ∧
    (∀ (uid : Int) (k : String) (a : Rat) (c nts : String) (i : Option Int),
      (Bill.mk uid k a c nts i).user_id = uid ∧
      (Bill.mk uid k a c nts i).kind = k ∧
      (Bill.mk uid k a c nts i).amount = a ∧
      (Bill.mk uid k a c nts i).category = c ∧
      (Bill.mk uid k a c nts i).notes = nts ∧
      (Bill.mk uid k a c nts i).id = i) ∧
    (∀ (uid : Int) (k : String) (a : Rat) (c : String),
      Bill.make uid k a c = Bill.mk uid k a c "" none) ∧
    (User.mk "eve" "pw" "superuser" none).role = "superuser" ∧
    (Bill.mk 1 "transfer" 5 "misc" "" none).kind = "transfer" :=
  ⟨fun _ _ _ _ => ⟨rfl, rfl, rfl, rfl⟩, fun _ _ _ => rfl,
   fun _ _ _ _ _ _ => ⟨rfl, rfl, rfl, rfl, rfl, rfl⟩, fun _ _ _ _ => rfl,
   rfl, rfl⟩

/-- Claim C8: the `session` field of `FinanceRequestHandler` and of
`ClientUI` is `none` immediately after construction, and no operation ever
produces a successor state: every method of both classes fails, so no
reachable code path assigns a session. -/
theorem session_never_populated :
    (∀ st : SQLiteDatabase, (FinanceRequestHandler.init st).session = none) ∧
    (∀ c : FinanceClient, (ClientUI.init c).session = none) ∧
    (∀ (h : FinanceRequestHandler) (payload : List (String × String)) res,
      h.dispatch payload ≠ .ok res) ∧
    (∀ (h : FinanceRequestHandler) (u p : String) res,
      h.handle_login u p ≠ .ok res) ∧
    (∀ (h : FinanceRequestHandler) res, h.handle_logout ≠ .ok res) ∧
    (∀ (h : FinanceRequestHandler) (scope : String) res,
      h.handle_fetch scope ≠ .ok res) ∧
    (∀ (h : FinanceRequestHandler) (bd : List (String × String)) res,
      h.handle_update bd ≠ .ok res) ∧
    (∀ (h : FinanceRequestHandler) (payload : List (String × String)) res,
      h.handle_admin_actions payload ≠ .ok res) ∧
    (∀ (h : FinanceRequestHandler) res, h.require_login ≠ .ok res) ∧
    (∀ (ui : ClientUI) res, ui.run ≠ .ok res) ∧
    (∀ (ui : ClientUI) res, ui.login_flow ≠ .ok res) ∧
    (∀ (ui : ClientUI) res, ui.main_menu ≠ .ok res) :=
  ⟨fun _ => rfl, fun _ => rfl, fun _ _ _ h => Except.noConfusion h,
   fun _ _ _ _ h => Except.noConfusion h, fun _ _ h => Except.noConfusion h,
   fun _ _ _ h => Except.noConfusion h, fun _ _ _ h => Except.noConfusion h,
   fun _ _ _ h => Except.noConfusion h, fun _ _ h => Except.noConfusion h,
   fun _ _ h => Except.noConfusion h, fun _ _ h => Except.noConfusion h,
   fun _ _ h => Except.noConfusion h⟩

/-- Witness for claim C8: `_require_login` on a freshly constructed
handler never succeeds with a concrete session. -/
theorem session_never_populated_witness :
    (FinanceRequestHandler.init (SQLiteDatabase.init "finance.db")).require_login ≠
      .ok (Session.mk (User.mk "alice" "pw" "admin" none) "token",
        FinanceRequestHandler.init (SQLiteDatabase.init "finance.db")) :=
  session_never_populated.2.2.2.2.2.2.2.2.1
    (FinanceRequestHandler.init (SQLiteDatabase.init "finance.db"))
    (Session.mk (User.mk "alice" "pw" "admin" none) "token",
      FinanceRequestHandler.init (SQLiteDatabase.init "finance.db"))

/-- Claim C9: the constructors of `SQLiteDatabase`, `FinanceServer`,
`FinanceClient`, `FinanceRequestHandler` and `ClientUI` never raise (they
are total functions in this embedding, mirroring `__init__` bodies that
only assign attributes) and store their arguments exactly;
`SQLiteDatabase`'s path defaults to the `finance.db` path next to the
source file when no path is given. -/
theorem constructors_store_arguments :
    (∀ path : String, (SQLiteDatabase.init path).path = path) ∧
    SQLiteDatabase.initDefault.path = DB_PATH ∧
    (∀ (h : String) (p : Int) (st : SQLiteDatabase),
      (FinanceServer.init h p st).host = h ∧
      (FinanceServer.init h p st).port = p ∧
      (FinanceServer.init h p st).storage = st) ∧
    (∀ (h : String) (p : Int),
      (FinanceClient.init h p).host = h ∧ (FinanceClient.init h p).port = p) ∧
    (∀ c : FinanceClient,
      (ClientUI.init c).client = c ∧ (ClientUI.init c).session = none) ∧
    (∀ st : SQLiteDatabase, (FinanceRequestHandler.init st).storage = st) :=
  ⟨fun _ => rfl, rfl, fun _ _ _ => ⟨rfl, rfl, rfl⟩, fun _ _ => ⟨rfl, rfl⟩,
   fun _ => ⟨rfl, rfl⟩, fun _ => rfl⟩

/-- Claim C10: `parse_args` never returns a namespace whose mode is
anything other than `server` or `client`; it fails (a non-normal argparse
exit) on the empty argument list, because the sub-command is required, and
on every argument list whose first token is neither `server` nor `client`
(for `-h`/`--help` the exit is the help exit; every other such first token
is an argparse error). -/
theorem parse_args_rejects_other_argv :
    (∀ argv ns, parse_args argv = .ok ns →
      ns.mode = "server" ∨ ns.mode = "client") ∧
    (∃ e, parse_args [] = .error e) ∧
    (∀ (t : String) (rest : List String), t ≠ "server" → t ≠ "client" →
      ∃ e, parse_args (t :: rest) = .error e) := by
  refine ⟨?_, ⟨_, rfl⟩, ?_⟩
  · intro argv ns hok
    cases argv with
    | nil => simp [parse_args] at hok
    | cons a rest =>
      rw [parse_args_cons] at hok
      by_cases hh : a = "-h" ∨ a = "--help"
      · rw [if_pos hh] at hok
        exact Except.noConfusion hok
      · rw [if_neg hh] at hok
        by_cases hsrv : a = "server"
        · rw [if_pos hsrv] at hok
          exact Or.inl (parseOptions_mode hok)
        · rw [if_neg hsrv] at hok
          by_cases hcli : a = "client"
          · rw [if_pos hcli] at hok
            exact Or.inr (parseOptions_mode hok)
          · rw [if_neg hcli] at hok
            by_cases hopt : looksLikeOptionToken a = true
            · rw [if_pos hopt] at hok
              exact Except.noConfusion hok
            · rw [if_neg hopt] at hok
              exact Except.noConfusion hok
  · intro t rest h1 h2
    rw [parse_args_cons]
    by_cases hh : t = "-h" ∨ t = "--help"
    · rw [if_pos hh]
      exact ⟨_, rfl⟩
    · rw [if_neg hh, if_neg h1, if_neg h2]
      by_cases hopt : looksLikeOptionToken t = true
      · rw [if_pos hopt]
        exact ⟨_, rfl⟩
      · rw [if_neg hopt]
        exact ⟨_, rfl⟩

/-- Witness for claim C10 at the concrete first token `bogus`. -/
theorem parse_args_rejects_other_argv_witness :
    ∃ e, parse_args ["bogus"] = .error e :=
  parse_args_rejects_other_argv.2.2 "bogus" [] (by decide) (by decide)
